import Mathlib

/-
Verification of the client-side behavior layer of the portfolio website
(theme switching, scroll-driven navigation state, intersection-based
fade-in animations, loading/transition overlay).  The definitions below
are a shallow embedding of the JavaScript modules: DOM elements that may
be absent are `Option` values, class toggles are boolean fields, JS
numbers (which may be NaN or infinite) are modelled by `JSNum`, and each
event handler becomes a state-transition function.
-/

namespace Portfolio

/-- JavaScript double values as used by the scroll-progress computation:
either NaN, an infinity, or a finite value (modelled as a rational;
negative zero is not distinguished from zero). -/
inductive JSNum where
  | nan : JSNum
  | posInf : JSNum
  | negInf : JSNum
  | num : ℚ → JSNum
deriving DecidableEq

/-- JavaScript division.  Finite by finite: `0/0 = NaN`, `x/0 = ±∞` for
`x ≠ 0` (the divisor is the JS value `+0`), otherwise exact division.
NaN propagates; `∞/∞ = NaN`; finite divided by an infinity is `0`. -/
def jsDiv : JSNum → JSNum → JSNum
  | .nan, _ => .nan
  | _, .nan => .nan
  | .num a, .num b =>
      if b = 0 then (if a = 0 then .nan else if 0 < a then .posInf else .negInf)
      else .num (a / b)
  | .posInf, .num b => if 0 ≤ b then .posInf else .negInf
  | .negInf, .num b => if 0 ≤ b then .negInf else .posInf
  | .num _, .posInf => .num 0
  | .num _, .negInf => .num 0
  | .posInf, .posInf => .nan
  | .posInf, .negInf => .nan
  | .negInf, .posInf => .nan
  | .negInf, .negInf => .nan

/-- JavaScript multiplication.  NaN propagates, `±∞ * 0 = NaN`,
infinities follow the sign rules, finite values multiply exactly. -/
def jsMul : JSNum → JSNum → JSNum
  | .nan, _ => .nan
  | _, .nan => .nan
  | .num a, .num b => .num (a * b)
  | .posInf, .posInf => .posInf
  | .posInf, .negInf => .negInf
  | .negInf, .posInf => .negInf
  | .negInf, .negInf => .posInf
  | .posInf, .num b => if b = 0 then .nan else if 0 < b then .posInf else .negInf
  | .num a, .posInf => if a = 0 then .nan else if 0 < a then .posInf else .negInf
  | .negInf, .num b => if b = 0 then .nan else if 0 < b then .negInf else .posInf
  | .num a, .negInf => if a = 0 then .nan else if 0 < a then .negInf else .posInf

/-- JavaScript `Math.min`: NaN if either argument is NaN, otherwise the
smaller value with `-∞ < finite < +∞`. -/
def jsMin : JSNum → JSNum → JSNum
  | .nan, _ => .nan
  | _, .nan => .nan
  | .negInf, _ => .negInf
  | _, .negInf => .negInf
  | .posInf, y => y
  | x, .posInf => x
  | .num a, .num b => .num (min a b)

/-- Line `const scrollPercentage = (scrollTop / scrollHeight) * 100;` of
`NavigationManager.initScrollProgress`, where `scrollableHeight` is the
already-computed `document.documentElement.scrollHeight - window.innerHeight`. -/
def scrollPercentage (scrollTop scrollableHeight : ℚ) : JSNum :=
  jsMul (jsDiv (.num scrollTop) (.num scrollableHeight)) (.num 100)

/-- The width written to the scroll-progress element:
`Math.min(scrollPercentage, 100)` (the `%` unit suffix is dropped). -/
def progressWidth (scrollTop scrollableHeight : ℚ) : JSNum :=
  jsMin (scrollPercentage scrollTop scrollableHeight) (.num 100)

/-- Header "scrolled" class update inside the scroll handler of
`NavigationManager.initScrollProgress`: the class is added when
`scrollTop > 50` and removed otherwise, so the new state ignores the
previous one. -/
def headerStep (_prev : Bool) (scrollTop : ℚ) : Bool :=
  decide (scrollTop > 50)

/-- The sequence of header "scrolled" states produced by feeding a list
of `scrollTop` samples through the scroll handler, starting from the
state `h0`. -/
def scrolledTrace (h0 : Bool) : List ℚ → List Bool
  | [] => []
  | s :: rest => headerStep h0 s :: scrolledTrace (headerStep h0 s) rest

/-- State touched by `NavigationManager.initScrollProgress`:
`scrollProgressWidth` is `none` when the `#scrollProgress` element is
absent (in which case the listener is never attached), otherwise the
current width value; `headerScrolled` is `none` when the `.header`
element is absent, otherwise whether it carries the "scrolled" class. -/
structure NavState where
  scrollProgressWidth : Option JSNum
  headerScrolled : Option Bool
deriving DecidableEq

/-- One scroll event as handled by `NavigationManager.initScrollProgress`.
When the scroll-progress element was absent the constructor returned
before attaching the listener, so the event changes nothing.  Otherwise
the progress width is recomputed and, if a header exists, its "scrolled"
class is set from the current `scrollTop`. -/
def scrollEvent (st : NavState) (scrollTop docScrollHeight innerHeight : ℚ) : NavState :=
  match st.scrollProgressWidth with
  | none => st
  | some _ =>
      let w := progressWidth scrollTop (docScrollHeight - innerHeight)
      let st1 : NavState := { st with scrollProgressWidth := some w }
      match st1.headerScrolled with
      | none => st1
      | some b => { st1 with headerScrolled := some (headerStep b scrollTop) }

/-- One navigation link as tracked by `NavigationManager`
(`querySelectorAll('.nav-link, .mobile-nav-link')`): its `data-section`
attribute (`none` when the attribute is missing, in which case
`getAttribute` returns null) and whether it carries the "active" class. -/
structure NavLink where
  dataSection : Option String
  active : Bool
deriving DecidableEq

/-- Method `NavigationManager.updateActiveNavLink(activeId)`: every
tracked link first has "active" removed, then gets it back exactly when
its `data-section` attribute equals `activeId`. -/
def updateActiveNavLink (activeId : String) (links : List NavLink) : List NavLink :=
  links.map fun link =>
    let cleared : NavLink := { link with active := false }
    if link.dataSection == some activeId then { cleared with active := true } else cleared

/-- Number of tracked links currently carrying the "active" class. -/
def activeCount (links : List NavLink) : ℕ :=
  (links.filter (·.active)).length

/-- A sequence of section-visibility events: each intersecting section id
is passed to `updateActiveNavLink` in order. -/
def applyNavEvents (links : List NavLink) (ids : List String) : List NavLink :=
  ids.foldl (fun ls i => updateActiveNavLink i ls) links

/-- Rewrites only the "active" flags of a link list, leaving the
`data-section` attributes alone; used to express that the post-state of
`updateActiveNavLink` does not depend on previous "active" flags. -/
def setActiveBy (g : NavLink → Bool) (links : List NavLink) : List NavLink :=
  links.map fun link => { link with active := g link }

/-- One entry handed to the fade-in `IntersectionObserver` callback of
`AnimationManager.initFadeInAnimations`: the observed element (identified
by a number) and its `isIntersecting` flag. -/
structure FadeEntry where
  target : ℕ
  isIntersecting : Bool
deriving DecidableEq

/-- State touched by the fade-in observer callback.  `visibleAdds` logs
each execution of `entry.target.classList.add('visible')` (the class
list itself is idempotent, the log counts how often the transition is
applied); `animated` is the `animatedElements` set; `observed` is the
set of targets the fade-in observer currently watches. -/
structure FadeState where
  visibleAdds : List ℕ
  animated : List ℕ
  observed : List ℕ
deriving DecidableEq

/-- One entry of the fade-in observer callback.  `ds x` is element `x`'s
`dataset.animateOnce` value (`none` when the attribute is missing).  If
the entry is intersecting and the target is not yet in
`animatedElements`: add the "visible" class, record the element, and —
unless `data-animate-once="false"` — unobserve it.  Otherwise nothing
happens. -/
def processEntry (ds : ℕ → Option String) (st : FadeState) (e : FadeEntry) : FadeState :=
  if e.isIntersecting && !(st.animated.contains e.target) then
    { visibleAdds := st.visibleAdds ++ [e.target],
      animated := st.animated ++ [e.target],
      observed := if ds e.target == some "false" then st.observed else st.observed.erase e.target }
  else st

/-- A whole stream of intersection-callback entries processed in order
(concatenating callback batches loses nothing, since each batch is a
left fold over its entries). -/
def processEntries (ds : ℕ → Option String) (st : FadeState) (es : List FadeEntry) : FadeState :=
  es.foldl (processEntry ds) st

/-- Method `AnimationManager.destroy()`: every observer is disconnected
(so it watches no targets) and the `observers` map and `animatedElements`
set are cleared.  Classes already written to the DOM remain. -/
def destroy (st : FadeState) : FadeState :=
  { st with animated := [], observed := [] }

/-- The page loader element: whether it has the "fade-out" class and its
`display` style. -/
structure LoaderEl where
  fadeOut : Bool
  display : String
deriving DecidableEq

/-- The page-transition overlay element: whether it has the "active"
class. -/
structure OverlayEl where
  active : Bool
deriving DecidableEq

/-- Callbacks scheduled with `setTimeout` by `LoadingManager`. -/
inductive TimerAction where
  | finishLoaderHide : TimerAction
  | navigate : String → TimerAction
  | finishTransitionHide : TimerAction
deriving DecidableEq

/-- State of `LoadingManager`: the two optional DOM hooks, the
`isLoading` re-entrancy flag, a log counter of how many times the
overlay-show side effect (`pageTransition.classList.add('active')`)
actually executed, and the pending timers with their delays in
milliseconds. -/
structure LMState where
  pageLoader : Option LoaderEl
  pageTransition : Option OverlayEl
  isLoading : Bool
  showCount : ℕ
  timers : List (ℕ × TimerAction)
deriving DecidableEq

/-- Method `LoadingManager.hideLoader()`: returns immediately when the
`#pageLoader` element is absent; otherwise adds the "fade-out" class and
schedules the 600ms finish step. -/
def hideLoader (st : LMState) : LMState :=
  match st.pageLoader with
  | none => st
  | some l =>
      { st with pageLoader := some { l with fadeOut := true },
                timers := st.timers ++ [(600, .finishLoaderHide)] }

/-- Method `LoadingManager.showTransition()`: returns immediately when a
transition is already in flight (`isLoading`) or the `#pageTransition`
overlay is absent; otherwise sets `isLoading` and adds the "active"
class (counted in `showCount`). -/
def showTransition (st : LMState) : LMState :=
  if st.isLoading then st
  else
    match st.pageTransition with
    | none => st
    | some ov =>
        { st with isLoading := true,
                  pageTransition := some { ov with active := true },
                  showCount := st.showCount + 1 }

/-- JavaScript `String.prototype.startsWith` on the character level. -/
def jsStartsWith (s pre : String) : Bool :=
  pre.data.isPrefixOf s.data

/-- JavaScript `String.prototype.endsWith` on the character level. -/
def jsEndsWith (s suf : String) : Bool :=
  suf.data.isSuffixOf s.data

/-- JavaScript `String.prototype.includes` for a one-character needle. -/
def jsIncludesChar (s : String) (c : Char) : Bool :=
  s.data.contains c

/-- An anchor element as seen by `LoadingManager.initTransitions`.
`hrefAttr` is the raw `href` attribute, which the `querySelectorAll`
attribute selectors match against; `href` is the `HTMLAnchorElement.href`
property, i.e. the attribute resolved against the document's base URL,
which the click handlers read; `target` is the `target` attribute. -/
structure Anchor where
  hrefAttr : String
  href : String
  target : String
deriving DecidableEq

/-- First block of `initTransitions`: a click listener is attached to
every anchor matching `a[href^="http"], a[href^="mailto:"]`. -/
def attachedHttpMailto (a : Anchor) : Bool :=
  jsStartsWith a.hrefAttr "http" || jsStartsWith a.hrefAttr "mailto:"

/-- Guard inside the first block's click handler:
`link.target !== '_blank' && !link.href.startsWith('mailto:')`. -/
def httpClickGuard (a : Anchor) : Bool :=
  !(a.target == "_blank") && !(jsStartsWith a.href "mailto:")

/-- Second block of `initTransitions`: anchors matching `a[href$=".html"]`
get a click listener only when
`!link.href.startsWith('http') && !link.href.includes('#')` — note that
these tests read the resolved `href` property, not the attribute. -/
def attachedHtmlRelative (a : Anchor) : Bool :=
  jsEndsWith a.hrefAttr ".html" &&
    !(jsStartsWith a.href "http") && !(jsIncludesChar a.href '#')

/-- Outcome of a click on an anchor: either the browser's default
navigation, or the intercepted path (preventDefault, transition overlay
shown, navigation to the resolved href issued after the given delay in
milliseconds). -/
inductive ClickOutcome where
  | defaultNav : ClickOutcome
  | intercept : ℕ → String → ClickOutcome
deriving DecidableEq

/-- Effect of clicking an anchor after `initTransitions` ran: the first
block's listener intercepts when its guard passes; the second block's
listener (when attached) always intercepts.  Both schedule navigation to
the resolved href after 600ms.  When no listener fires, the default
navigation proceeds. -/
def clickAnchor (a : Anchor) : ClickOutcome :=
  if attachedHttpMailto a && httpClickGuard a then .intercept 600 a.href
  else if attachedHtmlRelative a then .intercept 600 a.href
  else .defaultNav

/-- The anchor `<a href="sonora/index.html">` of the landing page.  On
the deployed site (origin https://samuelkahessay.github.io, per the
repository README) the `href` property resolves the relative attribute
against the document base URL, yielding an absolute https URL. -/
def sonoraAnchor : Anchor :=
  ⟨"sonora/index.html", "https://samuelkahessay.github.io/sonora/index.html", ""⟩

/-- State touched by `ThemeManager` (the `modules` variant):
`dataTheme` is the `data-theme` attribute of the document element,
`storedTheme` the persisted localStorage "theme" key, `themeIcon` the
text of the optional `#themeIcon` element (the source writes a sun or
moon glyph; the glyph is modelled by the strings "sun" and "moon"), and
`themeEvents` the payloads of the dispatched `themechange` events in
order. -/
structure ThemeState where
  dataTheme : Option String
  storedTheme : Option String
  themeIcon : Option String
  themeEvents : List String
deriving DecidableEq

/-- Method `ThemeManager.updateThemeIcon(theme)`: returns immediately
when the icon element is absent, otherwise writes the glyph for the
theme. -/
def updateThemeIcon (theme : String) (st : ThemeState) : ThemeState :=
  match st.themeIcon with
  | none => st
  | some _ =>
      { st with themeIcon := some (if theme == "dark" then "sun" else "moon") }

/-- Method `ThemeManager.setTheme(theme)`: sets the `data-theme`
attribute, persists the theme, updates the icon, and dispatches a
`themechange` event carrying the theme. -/
def setTheme (theme : String) (st : ThemeState) : ThemeState :=
  let st1 := { st with dataTheme := some theme, storedTheme := some theme }
  let st2 := updateThemeIcon theme st1
  { st2 with themeEvents := st2.themeEvents ++ [theme] }

/-- Method `ThemeManager.toggleTheme()`: reads the current `data-theme`
attribute and switches to "light" exactly when it is "dark", otherwise
to "dark". -/
def toggleTheme (st : ThemeState) : ThemeState :=
  let newTheme := if st.dataTheme == some "dark" then "light" else "dark"
  setTheme newTheme st

/-- The theme opposite to `t` in the sense of `toggleTheme`. -/
def flipTheme (t : String) : String :=
  if t == "dark" then "light" else "dark"

/-- When the scrollable height is positive, the width computation stays
on the finite path and `Math.min` caps it: the result is a rational in
`[0, 100]` (the lower bound needs `0 ≤ scrollTop`, which holds for
`pageYOffset`). -/
lemma progressWidth_spec (st sh : ℚ) (h1 : 0 ≤ st) (h2 : 0 < sh) :
    ∃ q : ℚ, progressWidth st sh = .num q ∧ 0 ≤ q ∧ q ≤ 100 := by
  refine ⟨min (st / sh * 100) 100, ?_, ?_, ?_⟩
  · simp [progressWidth, scrollPercentage, jsDiv, jsMul, jsMin, h2.ne']
  · exact le_min (by positivity) (by norm_num)
  · exact min_le_right _ _

/-- C1 (counterexample): with the scroll-progress element present, a
scroll event at `scrollTop = 0` on a page whose scroll height equals the
viewport height (scrollable height `500 - 500 = 0`) publishes
`0 / 0 * 100 = NaN` as the progress value — the claim that the published
value is clamped to `[0, 100]` and never NaN is false. -/
theorem scroll_progress_nan_at_zero_height :
    (scrollEvent ⟨some (.num 0), none⟩ 0 500 500).scrollProgressWidth = some JSNum.nan ∧
      JSNum.nan ≠ .num 0 ∧ JSNum.nan ≠ .num 100 := by
  refine ⟨?_, by decide, by decide⟩
  norm_num [scrollEvent, progressWidth, scrollPercentage, jsDiv, jsMul, jsMin]

/-- C1 (amended): for every scroll event with nonnegative `scrollTop`
and positive computed scrollable height (document scroll height greater
than the viewport height), the published progress value is a finite
rational in `[0, 100]` and in particular not NaN; at zero scrollable
height the handler instead publishes NaN. -/
theorem scroll_progress_clamped_when_scrollable (nav : NavState) (w : JSNum)
    (scrollTop docH innerH : ℚ) (hw : nav.scrollProgressWidth = some w)
    (h1 : 0 ≤ scrollTop) (h2 : innerH < docH) :
    ∃ q : ℚ, (scrollEvent nav scrollTop docH innerH).scrollProgressWidth = some (.num q) ∧
      0 ≤ q ∧ q ≤ 100 := by
  obtain ⟨q, hq, hq0, hq100⟩ := progressWidth_spec scrollTop (docH - innerH) h1 (by linarith)
  refine ⟨q, ?_, hq0, hq100⟩
  unfold scrollEvent
  rw [hw]
  cases hb : (⟨some (progressWidth scrollTop (docH - innerH)), nav.headerScrolled⟩ :
      NavState).headerScrolled <;> simp_all

/-- Witness for C1's amended theorem at `scrollTop = 50`,
`docScrollHeight = 700`, `innerHeight = 500`. -/
theorem scroll_progress_clamped_witness :
    ∃ q : ℚ, (scrollEvent ⟨some (.num 0), none⟩ 50 700 500).scrollProgressWidth =
        some (.num q) ∧ 0 ≤ q ∧ q ≤ 100 :=
  scroll_progress_clamped_when_scrollable ⟨some (.num 0), none⟩ (.num 0) 50 700 500 rfl
    (by norm_num) (by norm_num)

/-- C6 (counterexample): feeding the scrollTop samples
`[0, 60, 40, 120]` through the threshold-50 header update yields the
state sequence `[false, true, false, true]` — the claimed sequence
`[false, true, true, true]` is wrong at the third sample, where
`scrollTop = 40 ≤ 50` removes the class again. -/
theorem scrolled_trace_counterexample :
    scrolledTrace false [0, 60, 40, 120] = [false, true, false, true] ∧
      ([false, true, false, true] : List Bool) ≠ [false, true, true, true] := by decide

/-- C6 (amended): for either initial header state, the scrollTop samples
`[0, 60, 40, 120]` produce the "scrolled" sequence
`[false, true, false, true]`; the state is a pure threshold function of
the current sample, with no hysteresis. -/
theorem scrolled_trace_correct (h0 : Bool) :
    scrolledTrace h0 [0, 60, 40, 120] = [false, true, false, true] ∧
      (∀ h1 h2 : Bool, ∀ s : ℚ, headerStep h1 s = headerStep h2 s) := by
  refine ⟨by cases h0 <;> decide, fun h1 h2 s => rfl⟩

/-- C4: a second `showTransition()` issued while `isLoading` is already
true is a complete no-op — the double call equals the single call, and
one call from the idle state with the overlay present performs exactly
one overlay-show side effect, setting `isLoading` and the overlay's
"active" class. -/
theorem show_transition_reentrancy_guard (st : LMState) (ov : OverlayEl)
    (h1 : st.isLoading = false) (h2 : st.pageTransition = some ov) :
    showTransition (showTransition st) = showTransition st ∧
      (showTransition st).isLoading = true ∧
      (showTransition st).showCount = st.showCount + 1 ∧
      (showTransition st).pageTransition = some { ov with active := true } := by
  have hst : showTransition st =
      { st with isLoading := true, pageTransition := some { ov with active := true },
                showCount := st.showCount + 1 } := by
    simp [showTransition, h1, h2]
  refine ⟨?_, by rw [hst], by rw [hst], by rw [hst]⟩
  rw [hst]
  simp [showTransition]

/-- Witness for C4 at a concrete idle state with an inactive overlay. -/
theorem show_transition_reentrancy_witness :
    showTransition (showTransition ⟨none, some ⟨false⟩, false, 0, []⟩) =
        showTransition ⟨none, some ⟨false⟩, false, 0, []⟩ ∧
      (showTransition ⟨none, some ⟨false⟩, false, 0, []⟩).isLoading = true ∧
      (showTransition ⟨none, some ⟨false⟩, false, 0, []⟩).showCount = 0 + 1 ∧
      (showTransition ⟨none, some ⟨false⟩, false, 0, []⟩).pageTransition = some ⟨true⟩ :=
  show_transition_reentrancy_guard ⟨none, some ⟨false⟩, false, 0, []⟩ ⟨false⟩ rfl rfl

/-- C8: every operation whose target DOM element is absent is skipped
entirely: `hideLoader` without a page loader, `showTransition` without
an overlay, the theme-icon update without an icon, and the scroll
handler without a scroll-progress element (the listener is never
attached) all leave the state unchanged, and as total functions they
raise nothing. -/
theorem missing_element_operations_skip (lm1 lm2 : LMState) (ts : ThemeState)
    (ns : NavState) (t : String) (a b c : ℚ)
    (h1 : lm1.pageLoader = none) (h2 : lm2.pageTransition = none)
    (h3 : ts.themeIcon = none) (h4 : ns.scrollProgressWidth = none) :
    hideLoader lm1 = lm1 ∧ showTransition lm2 = lm2 ∧
      updateThemeIcon t ts = ts ∧ scrollEvent ns a b c = ns := by
  refine ⟨?_, ?_, ?_, ?_⟩
  · simp [hideLoader, h1]
  · simp [showTransition, h2]
  · simp [updateThemeIcon, h3]
  · simp [scrollEvent, h4]

/-- Witness for C8 at concrete states with the four hooks absent. -/
theorem missing_element_operations_witness :
    hideLoader ⟨none, none, false, 0, []⟩ = ⟨none, none, false, 0, []⟩ ∧
      showTransition ⟨none, none, false, 0, []⟩ = ⟨none, none, false, 0, []⟩ ∧
      updateThemeIcon "dark" ⟨some "light", none, none, []⟩ = ⟨some "light", none, none, []⟩ ∧
      scrollEvent ⟨none, some false⟩ 10 700 500 = ⟨none, some false⟩ :=
  missing_element_operations_skip ⟨none, none, false, 0, []⟩ ⟨none, none, false, 0, []⟩
    ⟨some "light", none, none, []⟩ ⟨none, some false⟩ "dark" 10 700 500 rfl rfl rfl rfl

/-- The icon update leaves the attribute, storage and event fields of
the theme state untouched. -/
lemma updateThemeIcon_fields (t : String) (st : ThemeState) :
    (updateThemeIcon t st).dataTheme = st.dataTheme ∧
      (updateThemeIcon t st).storedTheme = st.storedTheme ∧
      (updateThemeIcon t st).themeEvents = st.themeEvents := by
  unfold updateThemeIcon
  cases st.themeIcon <;> exact ⟨rfl, rfl, rfl⟩

/-- Effect of `setTheme` on the fields the claims read. -/
lemma setTheme_fields (t : String) (st : ThemeState) :
    (setTheme t st).dataTheme = some t ∧ (setTheme t st).storedTheme = some t ∧
      (setTheme t st).themeEvents = st.themeEvents ++ [t] := by
  obtain ⟨hd, hs, he⟩ := updateThemeIcon_fields t
    { st with dataTheme := some t, storedTheme := some t }
  refine ⟨?_, ?_, ?_⟩ <;> simp [setTheme, hd, hs, he]

/-- One toggle from the theme `t` switches attribute, storage and event
payload to `flipTheme t`. -/
lemma toggleTheme_spec (st : ThemeState) (t : String) (hdt : st.dataTheme = some t) :
    (toggleTheme st).dataTheme = some (flipTheme t) ∧
      (toggleTheme st).storedTheme = some (flipTheme t) ∧
      (toggleTheme st).themeEvents = st.themeEvents ++ [flipTheme t] := by
  have : toggleTheme st = setTheme (flipTheme t) st := by
    unfold toggleTheme flipTheme
    rw [hdt]
    by_cases h : t = "dark" <;> simp [h]
  rw [this]
  exact setTheme_fields (flipTheme t) st

/-- C9: starting from either stored theme, `toggleTheme` maps "light" to
"dark" and "dark" to "light" in the `data-theme` attribute, the
persisted key and the dispatched event payload, and applying it twice
restores the original theme everywhere (the second event carries the
original theme). -/
theorem toggle_theme_involutive (st : ThemeState) (t : String)
    (hdt : st.dataTheme = some t) (ht : t = "light" ∨ t = "dark") :
    (toggleTheme st).dataTheme = some (flipTheme t) ∧
      (toggleTheme st).storedTheme = some (flipTheme t) ∧
      (toggleTheme st).themeEvents = st.themeEvents ++ [flipTheme t] ∧
      (toggleTheme (toggleTheme st)).dataTheme = some t ∧
      (toggleTheme (toggleTheme st)).storedTheme = some t ∧
      (toggleTheme (toggleTheme st)).themeEvents = st.themeEvents ++ [flipTheme t, t] := by
  obtain ⟨h1, h2, h3⟩ := toggleTheme_spec st t hdt
  obtain ⟨g1, g2, g3⟩ := toggleTheme_spec (toggleTheme st) (flipTheme t) h1
  have hff : flipTheme (flipTheme t) = t := by
    rcases ht with rfl | rfl <;> rfl
  rw [hff] at g1 g2 g3
  exact ⟨h1, h2, h3, g1, g2, by rw [g3, h3]; simp⟩

/-- Witness for C9 at the state whose document theme is "light". -/
theorem toggle_theme_involutive_witness :
    (toggleTheme ⟨some "light", none, some "moon", []⟩).dataTheme = some (flipTheme "light") ∧
      (toggleTheme ⟨some "light", none, some "moon", []⟩).storedTheme =
        some (flipTheme "light") ∧
      (toggleTheme ⟨some "light", none, some "moon", []⟩).themeEvents =
        [] ++ [flipTheme "light"] ∧
      (toggleTheme (toggleTheme ⟨some "light", none, some "moon", []⟩)).dataTheme =
        some "light" ∧
      (toggleTheme (toggleTheme ⟨some "light", none, some "moon", []⟩)).storedTheme =
        some "light" ∧
      (toggleTheme (toggleTheme ⟨some "light", none, some "moon", []⟩)).themeEvents =
        [] ++ [flipTheme "light", "light"] :=
  toggle_theme_involutive ⟨some "light", none, some "moon", []⟩ "light" rfl (Or.inl rfl)

/-- The outcome of `updateActiveNavLink` is unchanged when the previous
"active" flags are rewritten arbitrarily: the handler clears every flag
before deciding. -/
lemma updateActiveNavLink_setActiveBy (id : String) (g : NavLink → Bool)
    (links : List NavLink) :
    updateActiveNavLink id (setActiveBy g links) = updateActiveNavLink id links := by
  unfold updateActiveNavLink setActiveBy
  rw [List.map_map]
  rfl

/-- Every link left by `updateActiveNavLink id` is active exactly when
its `data-section` attribute is `id`. -/
lemma mem_updateActiveNavLink {id : String} {links : List NavLink} {l : NavLink}
    (h : l ∈ updateActiveNavLink id links) : l.active = true ↔ l.dataSection = some id := by
  unfold updateActiveNavLink at h
  obtain ⟨x, _, rfl⟩ := List.mem_map.1 h
  by_cases hd : x.dataSection = some id
  · simp [hd]
  · simp [hd]

/-- The handler rewrites only "active" flags, so the multiset of
`data-section` attributes survives it. -/
lemma filterMap_dataSection_update (id : String) (links : List NavLink) :
    (updateActiveNavLink id links).filterMap (·.dataSection) =
      links.filterMap (·.dataSection) := by
  unfold updateActiveNavLink
  rw [List.filterMap_map]
  congr 1
  funext link
  by_cases hd : link.dataSection = some id <;> simp [Function.comp, hd]

/-- A link list with no active flag set has active count zero. -/
lemma activeCount_eq_zero (links : List NavLink) (h : ∀ l ∈ links, l.active = false) :
    activeCount links = 0 := by
  unfold activeCount
  rw [List.length_eq_zero, List.filter_eq_nil_iff]
  intro l hl
  simp [h l hl]

/-- When no tracked link matches the id, `updateActiveNavLink` leaves
every link inactive. -/
lemma activeCount_update_zero (id : String) (links : List NavLink)
    (h : ∀ l ∈ links, l.dataSection ≠ some id) :
    activeCount (updateActiveNavLink id links) = 0 := by
  apply activeCount_eq_zero
  intro l hl
  unfold updateActiveNavLink at hl
  obtain ⟨x, hx, rfl⟩ := List.mem_map.1 hl
  have hd : ¬ x.dataSection = some id := h x hx
  simp [hd]

/-- One call of `updateActiveNavLink` leaves at most one link active,
provided the tracked `data-section` attributes are pairwise distinct. -/
lemma activeCount_update_le_one (id : String) (links : List NavLink)
    (h : (links.filterMap (·.dataSection)).Nodup) :
    activeCount (updateActiveNavLink id links) ≤ 1 := by
  induction links with
  | nil => simp [activeCount, updateActiveNavLink]
  | cons l ls ih =>
    rcases hds : l.dataSection with _ | s
    · have htail : (ls.filterMap (·.dataSection)).Nodup := by
        rw [List.filterMap_cons_none (by simpa using hds)] at h
        exact h
      have hhead : ¬ l.dataSection = some id := by simp [hds]
      calc activeCount (updateActiveNavLink id (l :: ls))
          = activeCount (updateActiveNavLink id ls) := by
            simp [updateActiveNavLink, activeCount, hhead]
        _ ≤ 1 := ih htail
    · rw [List.filterMap_cons_some (by simpa using hds), List.nodup_cons] at h
      by_cases hsi : s = id
      · subst hsi
        have hzero : activeCount (updateActiveNavLink s ls) = 0 := by
          apply activeCount_update_zero
          intro x hx hxds
          exact h.1 (List.mem_filterMap.2 ⟨x, hx, hxds⟩)
        have hone : activeCount (updateActiveNavLink s (l :: ls)) =
            activeCount (updateActiveNavLink s ls) + 1 := by
          simp [updateActiveNavLink, activeCount, hds]
        rw [hone, hzero]
      · have hhead : ¬ l.dataSection = some id := by simp [hds, hsi]
        calc activeCount (updateActiveNavLink id (l :: ls))
            = activeCount (updateActiveNavLink id ls) := by
              simp [updateActiveNavLink, activeCount, hhead]
          _ ≤ 1 := ih h.2

/-- After at least one section-visibility event the active count is
bounded by the last event alone. -/
lemma at_most_one_active_aux (ids : List String) :
    ∀ (links : List NavLink) (i : String),
      (links.filterMap (·.dataSection)).Nodup →
      activeCount (applyNavEvents links (i :: ids)) ≤ 1 := by
  induction ids with
  | nil => intro links i h; exact activeCount_update_le_one i links h
  | cons j ids ih =>
    intro links i h
    have hstep : applyNavEvents links (i :: j :: ids) =
        applyNavEvents (updateActiveNavLink i links) (j :: ids) := rfl
    rw [hstep]
    refine ih (updateActiveNavLink i links) j ?_
    rw [filterMap_dataSection_update]
    exact h

/-- C2 (counterexample): with two tracked links sharing the
`data-section` value "about" — as when the same section appears in both
the desktop and the mobile menu — a single visibility event for "about"
leaves two links active, so the claim fails for arbitrary tracked
collections. -/
theorem duplicate_section_two_active :
    activeCount (applyNavEvents [⟨some "about", false⟩, ⟨some "about", false⟩] ["about"]) = 2 ∧
      ¬ activeCount
          (applyNavEvents [⟨some "about", false⟩, ⟨some "about", false⟩] ["about"]) ≤ 1 := by
  decide

/-- C2 (amended): provided the tracked links carry pairwise-distinct
`data-section` attributes and none is initially active, every sequence
of section-visibility events leaves at most one link active. -/
theorem at_most_one_active_of_nodup_sections (links : List NavLink) (ids : List String)
    (hnd : (links.filterMap (·.dataSection)).Nodup)
    (hinit : ∀ l ∈ links, l.active = false) :
    activeCount (applyNavEvents links ids) ≤ 1 := by
  rcases ids with _ | ⟨i, ids⟩
  · have h0 : activeCount links = 0 := activeCount_eq_zero links hinit
    simp [applyNavEvents, h0]
  · exact at_most_one_active_aux ids links i hnd

/-- Witness for C2's amended theorem on two distinct sections and three
events. -/
theorem at_most_one_active_witness :
    activeCount
      (applyNavEvents [⟨some "about", false⟩, ⟨some "contact", false⟩]
        ["about", "contact", "about"]) ≤ 1 :=
  at_most_one_active_of_nodup_sections
    [⟨some "about", false⟩, ⟨some "contact", false⟩] ["about", "contact", "about"]
    (by decide) (by decide)

/-- C10: the post-state of `updateActiveNavLink id` is determined by
`id` alone — rewriting the previous "active" flags arbitrarily does not
change the result — and a resulting link is active exactly when its
`data-section` attribute equals `id` (so when no tracked link matches,
none is active). -/
theorem update_active_nav_link_determines_state (id : String) (links : List NavLink)
    (g : NavLink → Bool) (l : NavLink) (h : l ∈ updateActiveNavLink id links) :
    updateActiveNavLink id (setActiveBy g links) = updateActiveNavLink id links ∧
      (l.active = true ↔ l.dataSection = some id) :=
  ⟨updateActiveNavLink_setActiveBy id g links, mem_updateActiveNavLink h⟩

/-- Witness for C10 on a concrete two-link collection. -/
theorem update_active_nav_link_witness :
    updateActiveNavLink "about"
        (setActiveBy (fun _ => true) [⟨some "about", false⟩, ⟨some "contact", true⟩]) =
      updateActiveNavLink "about" [⟨some "about", false⟩, ⟨some "contact", true⟩] ∧
      ((⟨some "about", true⟩ : NavLink).active = true ↔
        (⟨some "about", true⟩ : NavLink).dataSection = some "about") :=
  update_active_nav_link_determines_state "about"
    [⟨some "about", false⟩, ⟨some "contact", true⟩] (fun _ => true)
    ⟨some "about", true⟩ (by decide)

/-- The `animatedElements` set only grows during the fade-in callback. -/
lemma processEntry_animated_mono (ds : ℕ → Option String) (st : FadeState) (e : FadeEntry)
    {x : ℕ} (h : x ∈ st.animated) : x ∈ (processEntry ds st e).animated := by
  unfold processEntry
  split
  · exact List.mem_append_left _ h
  · exact h

/-- The `animatedElements` set only grows across a stream of entries. -/
lemma processEntries_animated_mono (ds : ℕ → Option String) (es : List FadeEntry) :
    ∀ (st : FadeState) {x : ℕ}, x ∈ st.animated → x ∈ (processEntries ds st es).animated := by
  induction es with
  | nil => intro st x h; exact h
  | cons e es ih =>
    intro st x h
    exact ih (processEntry ds st e) (processEntry_animated_mono ds st e h)

/-- After any entry stream containing a qualifying (intersecting) entry
for `x`, the element `x` is recorded in `animatedElements`. -/
lemma processEntries_reaches (ds : ℕ → Option String) (es : List FadeEntry) :
    ∀ (st : FadeState) {x : ℕ},
      (∃ e ∈ es, e.target = x ∧ e.isIntersecting = true) →
      x ∈ (processEntries ds st es).animated := by
  induction es with
  | nil => intro st x h; simp at h
  | cons e es ih =>
    intro st x h
    rcases h with ⟨f, hf, hfx, hfi⟩
    rcases List.mem_cons.1 hf with rfl | hmem
    · refine processEntries_animated_mono ds es (processEntry ds st f) ?_
      by_cases hmemA : x ∈ st.animated
      · exact processEntry_animated_mono ds st f hmemA
      · have hcont : st.animated.contains f.target = false := by
          simp [List.contains, hfx]
          exact hmemA
        unfold processEntry
        rw [hfi, hcont]
        simp [hfx]
    · exact ih (processEntry ds st e) ⟨f, hmem, hfx, hfi⟩

/-- One callback entry preserves the bookkeeping invariant for a
once-only element `x`: the "visible" class has been applied exactly as
often as `x` is recorded animated, the observed set stays duplicate-free,
and once `x` is animated it is no longer observed. -/
lemma fade_invariant_step (ds : ℕ → Option String) (x : ℕ) (hds : ds x ≠ some "false")
    (st : FadeState) (e : FadeEntry)
    (h1 : st.visibleAdds.count x = if x ∈ st.animated then 1 else 0)
    (h2 : st.observed.Nodup)
    (h3 : x ∈ st.animated → x ∉ st.observed) :
    (processEntry ds st e).visibleAdds.count x =
        (if x ∈ (processEntry ds st e).animated then 1 else 0) ∧
      (processEntry ds st e).observed.Nodup ∧
      (x ∈ (processEntry ds st e).animated → x ∉ (processEntry ds st e).observed) := by
  unfold processEntry
  split
  case isTrue hguard =>
    have hnotmem : e.target ∉ st.animated := by
      have hc := (Bool.and_eq_true _ _).mp hguard |>.2
      simp [List.contains] at hc
      exact hc
    have hnodup : (if ds e.target == some "false" then st.observed
        else st.observed.erase e.target).Nodup := by
      split
      · exact h2
      · exact h2.erase e.target
    by_cases hxy : e.target = x
    · subst hxy
      refine ⟨?_, hnodup, ?_⟩
      · simp [List.count_append, h1, hnotmem]
      · intro _
        have hbeq : (ds e.target == some "false") = false := by
          simpa using hds
        rw [hbeq]
        simp only [if_neg Bool.false_ne_true]
        intro hmem
        exact absurd ((h2.mem_erase_iff).mp hmem).1 (by simp)
    · have hxmem : (x ∈ st.animated ++ [e.target]) ↔ x ∈ st.animated := by
        simp [List.mem_append, Ne.symm hxy]
      refine ⟨?_, hnodup, ?_⟩
      · simp only [List.count_append, hxmem, h1]
        simp [List.count_singleton', hxy]
      · intro hx
        have hx0 : x ∈ st.animated := hxmem.mp hx
        have hobs := h3 hx0
        split
        · exact hobs
        · intro hmem
          exact hobs (List.mem_of_mem_erase hmem)
  case isFalse => exact ⟨h1, h2, h3⟩

/-- The bookkeeping invariant is preserved by a whole entry stream. -/
lemma fade_invariant_run (ds : ℕ → Option String) (x : ℕ) (hds : ds x ≠ some "false")
    (es : List FadeEntry) :
    ∀ (st : FadeState),
      st.visibleAdds.count x = (if x ∈ st.animated then 1 else 0) →
      st.observed.Nodup →
      (x ∈ st.animated → x ∉ st.observed) →
      (processEntries ds st es).visibleAdds.count x =
          (if x ∈ (processEntries ds st es).animated then 1 else 0) ∧
        (processEntries ds st es).observed.Nodup ∧
        (x ∈ (processEntries ds st es).animated → x ∉ (processEntries ds st es).observed) := by
  induction es with
  | nil => intro st h1 h2 h3; exact ⟨h1, h2, h3⟩
  | cons e es ih =>
    intro st h1 h2 h3
    obtain ⟨g1, g2, g3⟩ := fade_invariant_step ds x hds st e h1 h2 h3
    exact ih (processEntry ds st e) g1 g2 g3

/-- C3: for an element `x` whose `data-animate-once` is not "false",
starting from a state where `x` is not yet animated, the class was never
applied, and the observed set has no duplicates, any entry stream that
contains at least one intersecting report for `x` applies the "visible"
transition to `x` exactly once, and afterwards `x` is no longer observed
(the callback never re-submits elements to the observer). -/
theorem fade_in_exactly_once (ds : ℕ → Option String) (st0 : FadeState)
    (es : List FadeEntry) (x : ℕ)
    (hds : ds x ≠ some "false") (hx : x ∉ st0.animated)
    (hcount : st0.visibleAdds.count x = 0) (hnd : st0.observed.Nodup)
    (hq : ∃ e ∈ es, e.target = x ∧ e.isIntersecting = true) :
    (processEntries ds st0 es).visibleAdds.count x = 1 ∧
      x ∉ (processEntries ds st0 es).observed := by
  obtain ⟨g1, _, g3⟩ := fade_invariant_run ds x hds es st0
    (by rw [hcount, if_neg hx]) hnd (fun h => absurd h hx)
  have hreach : x ∈ (processEntries ds st0 es).animated :=
    processEntries_reaches ds es st0 hq
  exact ⟨by rw [g1, if_pos hreach], g3 hreach⟩

/-- Witness for C3: element 7, initially observed and unanimated, hit by
two intersecting entries, ends with exactly one class application. -/
theorem fade_in_exactly_once_witness :
    (processEntries (fun _ => none) ⟨[], [], [7]⟩ [⟨7, true⟩, ⟨7, true⟩]).visibleAdds.count 7
        = 1 ∧
      7 ∉ (processEntries (fun _ => none) ⟨[], [], [7]⟩ [⟨7, true⟩, ⟨7, true⟩]).observed :=
  fade_in_exactly_once (fun _ => none) ⟨[], [], [7]⟩ [⟨7, true⟩, ⟨7, true⟩] 7
    (by decide) (by decide) (by decide) (by decide) ⟨⟨7, true⟩, by decide, rfl, rfl⟩

/-- C5 (counterexample): `destroy()` clears the guard set, so a stale
intersecting callback for an already-animated element 5 applies the
"visible" transition a second time and re-records the element — the
claim that a stale callback after `destroy()` performs no mutation is
false. -/
theorem stale_callback_mutates_after_destroy :
    (processEntry (fun _ => none) (destroy ⟨[5], [5], []⟩) ⟨5, true⟩).visibleAdds.count 5 = 2 ∧
      5 ∈ (processEntry (fun _ => none) (destroy ⟨[5], [5], []⟩) ⟨5, true⟩).animated ∧
      (destroy ⟨[5], [5], []⟩).visibleAdds.count 5 = 1 := by
  decide

/-- Entries that are not intersecting never change the state. -/
lemma processEntries_no_intersection (ds : ℕ → Option String) (es : List FadeEntry) :
    ∀ (st : FadeState), (∀ e ∈ es, e.isIntersecting = false) →
      processEntries ds st es = st := by
  induction es with
  | nil => intro st _; rfl
  | cons e es ih =>
    intro st h
    have he : processEntry ds st e = st := by
      unfold processEntry
      rw [h e (List.mem_cons_self e es)]
      simp
    have : processEntries ds st (e :: es) = processEntries ds (processEntry ds st e) es := rfl
    rw [this, he]
    exact ih st (fun f hf => h f (List.mem_cons_of_mem e hf))

/-- C5 (amended): after `destroy()` the delivery of a stale callback is
total (nothing is thrown in the model) and, as long as none of its
entries is intersecting, it changes no element state; an intersecting
entry, however, re-applies the transition because the tracking set was
cleared. -/
theorem stale_callback_non_intersecting_noop (ds : ℕ → Option String) (st : FadeState)
    (es : List FadeEntry) (h : ∀ e ∈ es, e.isIntersecting = false) :
    processEntries ds (destroy st) es = destroy st :=
  processEntries_no_intersection ds es (destroy st) h

/-- Witness for C5's amended theorem on two non-intersecting entries. -/
theorem stale_callback_noop_witness :
    processEntries (fun _ => none) (destroy ⟨[3], [3], []⟩) [⟨3, false⟩, ⟨4, false⟩] =
      destroy ⟨[3], [3], []⟩ :=
  stale_callback_non_intersecting_noop (fun _ => none) ⟨[3], [3], []⟩
    [⟨3, false⟩, ⟨4, false⟩] (by decide)

/-- C7 (failing input): the anchor `href="sonora/index.html"` is a
relative `.html` page in none of the excluded classes (not a same-page
anchor, not mailto, not `target="_blank"`), yet clicking it performs the
browser's default navigation with no overlay and no 600ms delay: the
guard `!link.href.startsWith('http')` reads the resolved `href`
property, which on the deployed https origin always starts with "http",
so the relative-page click listener is never attached — contradicting
the code's own comments ("Add transition for same-origin page
navigation (like sonora/index.html)"). -/
theorem relative_html_anchor_not_intercepted :
    jsEndsWith sonoraAnchor.hrefAttr ".html" = true ∧
      jsStartsWith sonoraAnchor.hrefAttr "#" = false ∧
      jsStartsWith sonoraAnchor.hrefAttr "mailto:" = false ∧
      jsStartsWith sonoraAnchor.hrefAttr "http" = false ∧
      sonoraAnchor.target ≠ "_blank" ∧
      clickAnchor sonoraAnchor = .defaultNav := by
  decide

end Portfolio
